import Mathlib

/-!
Verification development for the RigelEngine in-game mode core:
a shallow embedding of `src/ingame_mode.cpp` (the mode controller:
update/render cycle, input handling, level-exit and player-death
detection, level restart) and of the debugging system source file
(`DebuggingSystem`: debug display toggles and the debug overlay's
world-collision / bounding-box passes), together with theorems
settling the specification's claims about them.

Machine integers are modelled as `Int` (tile coordinates, health and
pixel values stay far from any overflow boundary in the embedded
code, which performs no arithmetic beyond small additions and
comparisons).  `engine::TimeDelta` is a floating-point second count in
the C++ source; no arithmetic is ever performed on it in the embedded
code (it is only passed through to the systems), so it is modelled as
an opaque integral value.
-/

namespace Rigel

/-- Embedding of `engine::TimeDelta`: passed through unchanged by all embedded code. -/
abbrev TimeDelta := Int

/-- Embedding of `base::Vector` / `base::Point<int>`: an integer 2D coordinate. -/
structure Point where
  x : Int
  y : Int
deriving DecidableEq

/-! ## Debugging system (engine/debugging_system.cpp)

The file holds three independently toggleable display flags and an
`update` pass that draws (a) world-collision data for the visible map
region, (b) entity bounding boxes and map-geometry-link regions, and
(c) a tile grid. -/

/-- Embedding of `base::Color`: an RGBA color value. -/
structure Color where
  r : Nat
  g : Nat
  b : Nat
  a : Nat
deriving DecidableEq

/-- State of `engine::DebuggingSystem`: the three display flags
(member initializers default them to off). -/
structure DebuggingSystem where
  mShowBoundingBoxes : Bool := false
  mShowWorldCollisionData : Bool := false
  mShowGrid : Bool := false
deriving DecidableEq

/-- Embedding of `DebuggingSystem::toggleBoundingBoxDisplay`. -/
def DebuggingSystem.toggleBoundingBoxDisplay (d : DebuggingSystem) : DebuggingSystem :=
  { d with mShowBoundingBoxes := !d.mShowBoundingBoxes }

/-- Embedding of `DebuggingSystem::toggleWorldCollisionDataDisplay`. -/
def DebuggingSystem.toggleWorldCollisionDataDisplay (d : DebuggingSystem) : DebuggingSystem :=
  { d with mShowWorldCollisionData := !d.mShowWorldCollisionData }

/-- Embedding of `DebuggingSystem::toggleGridDisplay`. -/
def DebuggingSystem.toggleGridDisplay (d : DebuggingSystem) : DebuggingSystem :=
  { d with mShowGrid := !d.mShowGrid }

/-- Component-presence view of an entity as seen by the debugging
system's queries (`has_component` calls and the `each<...>` filters).
Component payloads (positions, box extents) only feed the screen-space
geometry of the draw calls, which is external rendering-backend
arithmetic; the claims are about which entities are drawn and in
which color. -/
structure DebugEntity where
  hasWorldPosition : Bool
  hasBoundingBox : Bool
  hasPlayerDamaging : Bool
  hasSolidBody : Bool
  hasMapGeometryLink : Bool
deriving DecidableEq

/-- Embedding of `colorForEntity` (anonymous namespace of the debugging system
file): red if the entity has a `PlayerDamaging` component, else yellow
if it has a `SolidBody` component, else green. -/
def colorForEntity (e : DebugEntity) : Color :=
  if e.hasPlayerDamaging then
    ⟨255, 0, 0, 255⟩
  else if e.hasSolidBody then
    ⟨255, 255, 0, 255⟩
  else
    ⟨0, 255, 0, 255⟩

/-- The bounding-box pass of `DebuggingSystem::update`: when
`mShowBoundingBoxes` is on, every entity yielded by
`each<WorldPosition, BoundingBox>` is drawn with `colorForEntity`,
then every entity yielded by `each<WorldPosition, MapGeometryLink>`
has its linked region drawn in cyan `{0, 255, 255, 190}`.  The result
is the list of (entity, fill color) rectangle draw calls in issue
order. -/
def boundingBoxPassDraws (d : DebuggingSystem) (es : List DebugEntity) :
    List (DebugEntity × Color) :=
  if d.mShowBoundingBoxes then
    (es.filter fun e => e.hasWorldPosition && e.hasBoundingBox).map
      (fun e => (e, colorForEntity e))
    ++ (es.filter fun e => e.hasWorldPosition && e.hasMapGeometryLink).map
      (fun e => (e, ⟨0, 255, 255, 190⟩))
  else []

/-- The world-collision pass of `DebuggingSystem::update`: the list of
`(col, row)` tile coordinates at which `mpMap->collisionData` and
`mpMap->attributes` are queried.  The source loops `y` over
`[0, mapViewPortHeightTiles)` and `x` over `[0, mapViewPortWidthTiles)`,
sets `col = x + cameraPos.x`, `row = y + cameraPos.y` and skips the
tile when `col >= map.width() || row >= map.height()`.

Modelled from the spec: `data::map::Map` itself is not part of the
excerpted sources; per the spec's data model its extents are a
tile-grid width/height and tile coordinates are plain integers, so
`width`/`height` appear here as `Int` parameters and the queried
coordinates as `Int` pairs. -/
def worldCollisionQueriedTiles (viewPortWidthTiles viewPortHeightTiles : Nat)
    (cameraPos : Point) (mapWidth mapHeight : Int) : List (Int × Int) :=
  (List.range viewPortHeightTiles).flatMap fun y =>
    (List.range viewPortWidthTiles).filterMap fun x =>
      let col := Int.ofNat x + cameraPos.x
      let row := Int.ofNat y + cameraPos.y
      if col ≥ mapWidth ∨ row ≥ mapHeight then none else some (col, row)

/-! ## In-game mode (src/ingame_mode.cpp)

The mode controller owns the entity store, the systems, the level
data, snapshots taken at level start, and the per-frame update/render
cycle.  The gameplay, physics and rendering systems are external
collaborators (their sources are not part of the excerpted core);
their one frame of effect on the mutable simulation state is modelled
by an environment function `Env` that the controller invokes once per
system in the fixed order of `updateAndRender`. -/

/-- Embedding of `game_logic::player::PlayerState`: the player state machine's
states.  Only `Dead` is inspected by the mode controller. -/
inductive PlayerState
  | Standing
  | Walking
  | Jumping
  | Falling
  | Dead
deriving DecidableEq

/-- Embedding of `data::PlayerModel`: health plus further inventory state.
`mAmmo` is modelled from the spec ("inventory/ammo state") as a
representative non-health field carried by the snapshot/restore
mechanics. -/
structure PlayerModel where
  mHealth : Int
  mAmmo : Int
deriving DecidableEq

/-- Modelled from the spec: `data::map::Map` is not part of the
excerpted sources; per the spec it is a 2D tile grid, mutable at
runtime, whose identity (for snapshot/restore) is its full cell
contents.  Cell payloads are opaque to the mode controller. -/
structure GameMap where
  width : Int
  height : Int
  cells : List Int
deriving DecidableEq

/-- Embedding of `game_logic::components::TriggerType`: the trigger kind enum; the
mode controller only distinguishes `LevelExit` from everything else. -/
inductive TriggerType
  | LevelExit
  | Other
deriving DecidableEq

/-- An entity carrying a `Trigger` component plus a `WorldPosition`,
as iterated by `each<Trigger, WorldPosition>` in
`checkForLevelExitReached`. -/
structure TriggerEntity where
  mType : TriggerType
  position : Point
deriving DecidableEq

/-- The player's bounding box in world space, as produced by
`toWorldSpace(*component<BoundingBox>(), *component<WorldPosition>())`
and consumed through its `left()`, `right()` and `bottom()`
accessors.  `toWorldSpace` and the box accessors live outside the
excerpted sources; the checks operate purely on these three edges. -/
structure WorldBox where
  left : Int
  right : Int
  bottom : Int
deriving DecidableEq

/-- The contents of the entity store that the mode controller reads:
the single player entity's `PlayerControlled` state and world-space
bounding box, and the entities carrying `Trigger` + `WorldPosition`.
An `EntityWorld` value also stands for the initial actor descriptor
list (`mLevelData.mInitialActors`): per the spec the entity factory
deterministically recreates from it exactly this entity-store
content. -/
structure EntityWorld where
  playerState : PlayerState
  playerBBox : WorldBox
  triggers : List TriggerEntity
deriving DecidableEq

/-- The mutable simulation state lent to the systems for one frame:
the entity store contents, `mLevelData.mMap`, and `mPlayerModel`. -/
structure SimState where
  entities : EntityWorld
  mMap : GameMap
  mPlayerModel : PlayerModel
deriving DecidableEq

/-- The level-triggered input flags (`PlayerInputState`), set on
key-down and cleared on key-up. -/
structure PlayerInputs where
  mMovingUp : Bool := false
  mMovingDown : Bool := false
  mMovingLeft : Bool := false
  mMovingRight : Bool := false
  mJumping : Bool := false
  mShooting : Bool := false
deriving DecidableEq

/-- The identifiers of the systems updated by
`IngameMode::updateAndRender`, in source order of declaration. -/
inductive SystemId
  | elevator
  | playerMovement
  | attack
  | playerInteraction
  | securityCamera
  | physics
  | playerDamage
  | damageInfliction
  | animation
  | mapScroll
  | rendering
  | debugging
  | hud
deriving DecidableEq

/-- Observable events of one `updateAndRender` call, in the order the
corresponding source statements execute. -/
inductive Event
  | update (sys : SystemId) (dt : TimeDelta)
  | compositeViewPort
  | debugText
  | deathCheck
  | exitCheck
  | fadeOut
  | fadeIn
  | resetMapToStart
  | resetAndRecreateEntities
  | restorePlayerModel
deriving DecidableEq

/-- One frame of effect of an external system on the simulation
state.  The systems' own sources are outside the excerpted core, so
their behavior is universally quantified; they receive the input
flags (via `setInputState` or a retained pointer) but cannot touch
the mode controller's own members. -/
abbrev Env := SystemId → TimeDelta → PlayerInputs → SimState → SimState

/-- Embedding of `IngameMode`: the mode controller's state. -/
structure IngameMode where
  sim : SimState
  mInitialActors : EntityWorld
  mMapAtLevelStart : GameMap
  mPlayerModelAtLevelStart : PlayerModel
  mLevelFinished : Bool
  mShowDebugText : Bool
  mPlayerInputs : PlayerInputs
  debuggingSystem : DebuggingSystem
deriving DecidableEq

/-- The `IngameMode` constructor together with `loadLevel`: snapshots
the freshly loaded map and the player model, retains the initial
actor list, and initializes `mLevelFinished(false)` and
`mShowDebugText(false)`. -/
def newIngameMode (actors : EntityWorld) (map : GameMap) (model : PlayerModel) :
    IngameMode :=
  { sim := ⟨actors, map, model⟩
    mInitialActors := actors
    mMapAtLevelStart := map
    mPlayerModelAtLevelStart := model
    mLevelFinished := false
    mShowDebugText := false
    mPlayerInputs := {}
    debuggingSystem := {} }

/-- The order in which `updateAndRender` updates the systems:
elevator, player movement, attack, player interaction, security
camera, physics, player damage, damage infliction, animation, map
scroll, then (into the bound render target) rendering, debugging and
the HUD renderer. -/
def systemUpdateOrder : List SystemId :=
  [SystemId.elevator, SystemId.playerMovement, SystemId.attack,
   SystemId.playerInteraction, SystemId.securityCamera, SystemId.physics,
   SystemId.playerDamage, SystemId.damageInfliction, SystemId.animation,
   SystemId.mapScroll, SystemId.rendering, SystemId.debugging, SystemId.hud]

/-- Apply one frame of every system, in `systemUpdateOrder`, to the
simulation state. -/
def runSystems (env : Env) (inputs : PlayerInputs) (dt : TimeDelta)
    (sim : SimState) : SimState :=
  systemUpdateOrder.foldl (fun acc i => env i dt inputs acc) sim

/-- The events of the update/render part of one non-no-op
`updateAndRender` call: the system updates in order, the composite of
the off-screen viewport target to the screen, and the debug text
overlay when enabled. -/
def mainTrace (s : IngameMode) (dt : TimeDelta) : List Event :=
  systemUpdateOrder.map (fun i => Event.update i dt)
    ++ [Event.compositeViewPort]
    ++ (if s.mShowDebugText then [Event.debugText] else [])

/-- The per-trigger condition of `checkForLevelExitReached`:
`playerAboveOrAtTriggerHeight && touchingTriggerOnXAxis`. -/
def levelExitCondition (playerBBox : WorldBox) (triggerPosition : Point) : Bool :=
  decide (playerBBox.bottom ≤ triggerPosition.y)
    && (decide (triggerPosition.x ≥ playerBBox.left)
        && decide (triggerPosition.x ≤ playerBBox.right + 1))

/-- Embedding of `IngameMode::checkForLevelExitReached`: iterate all entities with
`Trigger` + `WorldPosition`; for each, skip it when its type is not
`LevelExit` or `mLevelFinished` already holds, else assign the exit
condition to `mLevelFinished`. -/
def checkForLevelExitReached (s : IngameMode) : IngameMode :=
  { s with
    mLevelFinished :=
      s.sim.entities.triggers.foldl
        (fun acc t =>
          if t.mType ≠ TriggerType.LevelExit ∨ acc = true then acc
          else levelExitCondition s.sim.entities.playerBBox t.position)
        s.mLevelFinished }

/-- The condition tested by `IngameMode::checkForPlayerDeath`:
`playerState.mState == PlayerState::Dead && mPlayerModel.mHealth <= 0`. -/
def playerDead (sim : SimState) : Bool :=
  decide (sim.entities.playerState = PlayerState.Dead)
    && decide (sim.mPlayerModel.mHealth ≤ 0)

/-- The state writes of `IngameMode::restartLevel` before its forced
render pass: reset the map to the level-start snapshot, destroy all
entities and recreate them from the initial actor list, restore the
player model from the level-start snapshot. -/
def restartBase (s : IngameMode) : IngameMode :=
  { s with
    sim :=
      { entities := s.mInitialActors
        mMap := s.mMapAtLevelStart
        mPlayerModel := s.mPlayerModelAtLevelStart } }

/-- The events of `IngameMode::restartLevel` around the trace `ntr` of
its nested `updateAndRender(0)` call: fade out, the three state
resets, the forced render pass, fade in. -/
def restartSteps (ntr : List Event) : List Event :=
  [Event.fadeOut, Event.resetMapToStart, Event.resetAndRecreateEntities,
   Event.restorePlayerModel] ++ ntr ++ [Event.fadeIn]

/-- Embedding of `IngameMode::updateAndRender`: no-op once `mLevelFinished`; else
update all systems in the fixed order, render (into the off-screen
target, then composite, then optional debug text), then
`checkForPlayerDeath` — which calls `restartLevel` when the player is
dead, recursively forcing one `updateAndRender(0)` pass — then
`checkForLevelExitReached`.  `fuel` bounds the restart recursion
depth (the C++ recursion is unbounded; a call that would exceed the
bound yields `none`).  Returns the successor state and the event
trace of the call. -/
def updateAndRender (env : Env) : Nat → IngameMode → TimeDelta →
    Option (IngameMode × List Event)
  | fuel, s, dt =>
    if s.mLevelFinished then some (s, [])
    else
      if playerDead (runSystems env s.mPlayerInputs dt s.sim) then
        match fuel with
        | 0 => none
        | f + 1 =>
          match updateAndRender env f
              (restartBase { s with sim := runSystems env s.mPlayerInputs dt s.sim })
              0 with
          | none => none
          | some (s3, ntr) =>
            some (checkForLevelExitReached s3,
              mainTrace s dt ++ [Event.deathCheck] ++ restartSteps ntr
                ++ [Event.exitCheck])
      else
        some (checkForLevelExitReached
            { s with sim := runSystems env s.mPlayerInputs dt s.sim },
          mainTrace s dt ++ [Event.deathCheck] ++ [Event.exitCheck])

/-- Embedding of `IngameMode::restartLevel` as a standalone operation: the state
resets followed by the forced `updateAndRender(0)` pass, framed by
the fade-out/fade-in events. -/
def restartLevel (env : Env) (fuel : Nat) (s : IngameMode) :
    Option (IngameMode × List Event) :=
  match updateAndRender env fuel (restartBase s) 0 with
  | none => none
  | some (s3, ntr) => some (s3, restartSteps ntr)

/-- The key codes distinguished by `IngameMode::handleEvent`. -/
inductive KeyCode
  | up
  | down
  | left
  | right
  | ctrl
  | alt
  | keyB
  | keyC
  | keyD
  | other
deriving DecidableEq

/-- A key event: `keyDown = true` for `SDL_KEYDOWN`, `false` for
`SDL_KEYUP`.  (Non-key events return without effect in the source and
are not modelled.) -/
structure KeyEvent where
  keyDown : Bool
  key : KeyCode
deriving DecidableEq

/-- Embedding of `IngameMode::handleEvent`: movement/jump/shoot flags follow the
key level; on key-up only, the debug keys toggle the bounding-box
display (`b`), the world-collision-data display (`c`) and the debug
text overlay (`d`). -/
def handleEvent (s : IngameMode) (e : KeyEvent) : IngameMode :=
  let keyPressed := e.keyDown
  let s1 : IngameMode :=
    match e.key with
    | KeyCode.up => { s with mPlayerInputs.mMovingUp := keyPressed }
    | KeyCode.down => { s with mPlayerInputs.mMovingDown := keyPressed }
    | KeyCode.left => { s with mPlayerInputs.mMovingLeft := keyPressed }
    | KeyCode.right => { s with mPlayerInputs.mMovingRight := keyPressed }
    | KeyCode.ctrl => { s with mPlayerInputs.mJumping := keyPressed }
    | KeyCode.alt => { s with mPlayerInputs.mShooting := keyPressed }
    | _ => s
  if keyPressed then s1
  else
    match e.key with
    | KeyCode.keyB =>
      { s1 with debuggingSystem := s1.debuggingSystem.toggleBoundingBoxDisplay }
    | KeyCode.keyC =>
      { s1 with
        debuggingSystem := s1.debuggingSystem.toggleWorldCollisionDataDisplay }
    | KeyCode.keyD => { s1 with mShowDebugText := !s1.mShowDebugText }
    | _ => s1

/-- An externally driven operation on a live mode instance: an input
event or one frame. -/
inductive ModeOp
  | key (e : KeyEvent)
  | frame (dt : TimeDelta)

/-- Run a sequence of operations against a mode instance. -/
def runOps (env : Env) (fuel : Nat) : IngameMode → List ModeOp →
    Option IngameMode
  | s, [] => some s
  | s, ModeOp.key e :: rest => runOps env fuel (handleEvent s e) rest
  | s, ModeOp.frame dt :: rest =>
    match updateAndRender env fuel s dt with
    | none => none
    | some (s', _) => runOps env fuel s' rest

/-- The identity environment: systems that change nothing, used for
concrete evaluations. -/
def idEnv : Env := fun _ _ _ sim => sim

/-! ## Concrete fixtures for witnesses and counterexamples -/

/-- A small concrete map. -/
def mapW : GameMap := ⟨5, 5, [1, 2, 3]⟩

/-- A second concrete map, different from `mapW`. -/
def mapW2 : GameMap := ⟨5, 5, [9, 9, 9]⟩

/-- A concrete entity-store content: a standing player, no triggers. -/
def actorsW : EntityWorld := ⟨PlayerState.Standing, ⟨9, 11, 5⟩, []⟩

/-- A concrete player model with positive health. -/
def modelW : PlayerModel := ⟨7, 3⟩

/-- A live mode instance: level not finished, player alive. -/
def sAlive : IngameMode :=
  { sim := ⟨actorsW, mapW, modelW⟩
    mInitialActors := actorsW
    mMapAtLevelStart := mapW
    mPlayerModelAtLevelStart := modelW
    mLevelFinished := false
    mShowDebugText := false
    mPlayerInputs := {}
    debuggingSystem := {} }

/-- The trace of one plain frame of `sAlive` at `dt = 3` under the
identity environment. -/
def trAlive : List Event :=
  [Event.update SystemId.elevator 3, Event.update SystemId.playerMovement 3,
   Event.update SystemId.attack 3, Event.update SystemId.playerInteraction 3,
   Event.update SystemId.securityCamera 3, Event.update SystemId.physics 3,
   Event.update SystemId.playerDamage 3, Event.update SystemId.damageInfliction 3,
   Event.update SystemId.animation 3, Event.update SystemId.mapScroll 3,
   Event.update SystemId.rendering 3, Event.update SystemId.debugging 3,
   Event.update SystemId.hud 3, Event.compositeViewPort,
   Event.deathCheck, Event.exitCheck]

/-- The same instance after the level-finished latch has been set. -/
def sFinished : IngameMode := { sAlive with mLevelFinished := true }

/-- The finished instance after a key-down LEFT event. -/
def sFinLeft : IngameMode :=
  { sFinished with
    mPlayerInputs := { sFinished.mPlayerInputs with mMovingLeft := true } }

/-- A finished instance whose player happens to be dead with zero
health and whose runtime map differs from the level-start snapshot. -/
def sFinishedDead : IngameMode :=
  { sAlive with
    mLevelFinished := true
    sim := { entities := ⟨PlayerState.Dead, ⟨9, 11, 5⟩, []⟩, mMap := mapW2,
             mPlayerModel := ⟨0, 3⟩ } }

/-- A live instance whose player is dead with zero health. -/
def sDeadNow : IngameMode :=
  { sAlive with
    sim := { entities := ⟨PlayerState.Dead, ⟨9, 11, 5⟩, []⟩, mMap := mapW,
             mPlayerModel := ⟨0, 3⟩ } }

/-- The successor state of one frame of `sDeadNow` at `dt = 2`. -/
def sDeadOut : IngameMode :=
  ((updateAndRender idEnv 1 sDeadNow 2).map Prod.fst).getD sDeadNow

/-- The trace of one frame of `sDeadNow` at `dt = 2`. -/
def trDead : List Event :=
  ((updateAndRender idEnv 1 sDeadNow 2).map Prod.snd).getD []

/-- A live instance whose initial actor list spawns the player already
touching a level-exit trigger. -/
def sRestartCex : IngameMode :=
  { sAlive with
    mInitialActors :=
      ⟨PlayerState.Standing, ⟨9, 11, 5⟩, [⟨TriggerType.LevelExit, ⟨10, 5⟩⟩]⟩ }

/-- The successor state of `restartLevel` on `sRestartCex`. -/
def sRestartOut : IngameMode :=
  ((restartLevel idEnv 1 sRestartCex).map Prod.fst).getD sRestartCex

/-- The trace of `restartLevel` on `sRestartCex`. -/
def trRestart : List Event :=
  ((restartLevel idEnv 1 sRestartCex).map Prod.snd).getD []

/-- A live instance with one level-exit trigger at `(10, 5)` and the
player box at `left = 9, right = 11, bottom = 5`. -/
def sExitW : IngameMode :=
  { sAlive with
    sim := { entities := ⟨PlayerState.Standing, ⟨9, 11, 5⟩,
               [⟨TriggerType.LevelExit, ⟨10, 5⟩⟩]⟩, mMap := mapW,
             mPlayerModel := modelW } }

/-- A live instance with one level-exit trigger at `(10, 5)` and the
player box moved left so that `right = 9 < 10`. -/
def sC2cex : IngameMode :=
  { sAlive with
    sim := { entities := ⟨PlayerState.Standing, ⟨7, 9, 5⟩,
               [⟨TriggerType.LevelExit, ⟨10, 5⟩⟩]⟩, mMap := mapW,
             mPlayerModel := modelW } }

/-- A debugging system with only the bounding-box display enabled. -/
def dOn : DebuggingSystem := ⟨true, false, false⟩

/-- An entity with position, box and a `PlayerDamaging` component. -/
def eDamaging : DebugEntity := ⟨true, true, true, false, false⟩

/-- An entity carrying a `MapGeometryLink` but no `WorldPosition`. -/
def eLinkNoPos : DebugEntity := ⟨false, false, false, false, true⟩

/-- The evaluation-order property asserted by claim C3: some
evaluation of the exit check strictly precedes some evaluation of the
death check within the trace. -/
def exitCheckBeforeDeathCheck (tr : List Event) : Prop :=
  ∃ i j : Fin tr.length, (i : Nat) < (j : Nat) ∧
    tr.get i = Event.exitCheck ∧ tr.get j = Event.deathCheck

instance (tr : List Event) : Decidable (exitCheckBeforeDeathCheck tr) := by
  unfold exitCheckBeforeDeathCheck
  infer_instance

/-! ## Helper lemmas -/

/-- Unfolding equation of `updateAndRender` at fuel 0. -/
lemma updateAndRender_zero (env : Env) (s : IngameMode) (dt : TimeDelta) :
    updateAndRender env 0 s dt =
      if s.mLevelFinished then some (s, [])
      else if playerDead (runSystems env s.mPlayerInputs dt s.sim) then none
      else
        some (checkForLevelExitReached
            { s with sim := runSystems env s.mPlayerInputs dt s.sim },
          mainTrace s dt ++ [Event.deathCheck] ++ [Event.exitCheck]) := by
  rfl

/-- Unfolding equation of `updateAndRender` at positive fuel. -/
lemma updateAndRender_succ (env : Env) (f : Nat) (s : IngameMode) (dt : TimeDelta) :
    updateAndRender env (f + 1) s dt =
      if s.mLevelFinished then some (s, [])
      else
        if playerDead (runSystems env s.mPlayerInputs dt s.sim) then
          match updateAndRender env f
              (restartBase { s with sim := runSystems env s.mPlayerInputs dt s.sim })
              0 with
          | none => none
          | some (s3, ntr) =>
            some (checkForLevelExitReached s3,
              mainTrace s dt ++ [Event.deathCheck] ++ restartSteps ntr
                ++ [Event.exitCheck])
        else
          some (checkForLevelExitReached
              { s with sim := runSystems env s.mPlayerInputs dt s.sim },
            mainTrace s dt ++ [Event.deathCheck] ++ [Event.exitCheck]) := by
  rfl

/-- A finished level makes `updateAndRender` the identity with an
empty trace. -/
lemma updateAndRender_finished (env : Env) (fuel : Nat) (s : IngameMode)
    (dt : TimeDelta) (h : s.mLevelFinished = true) :
    updateAndRender env fuel s dt = some (s, []) := by
  rw [updateAndRender.eq_def]
  simp [h]

/-- Every non-no-op call's trace opens with the system updates in
declaration order. -/
lemma updateAndRender_trace_shape (env : Env) (fuel : Nat) (s : IngameMode)
    (dt : TimeDelta) (s' : IngameMode) (tr : List Event)
    (hf : s.mLevelFinished = false)
    (h : updateAndRender env fuel s dt = some (s', tr)) :
    ∃ rest, tr = systemUpdateOrder.map (fun i => Event.update i dt) ++ rest := by
  rw [updateAndRender.eq_def] at h
  simp only [hf, Bool.false_eq_true, if_false] at h
  split at h
  case isTrue =>
    split at h
    case h_1 => exact absurd h (by simp)
    case h_2 f =>
      split at h
      case h_1 => exact absurd h (by simp)
      case h_2 s3 ntr heq =>
        refine ⟨[Event.compositeViewPort]
          ++ (if s.mShowDebugText then [Event.debugText] else [])
          ++ [Event.deathCheck] ++ restartSteps ntr ++ [Event.exitCheck], ?_⟩
        injection h with h1
        injection h1 with h1a h1b
        rw [← h1b]
        simp [mainTrace]
  case isFalse =>
    refine ⟨[Event.compositeViewPort]
      ++ (if s.mShowDebugText then [Event.debugText] else [])
      ++ [Event.deathCheck] ++ [Event.exitCheck], ?_⟩
    injection h with h1
    injection h1 with h1a h1b
    rw [← h1b]
    simp [mainTrace]

/-- A frame never touches the controller members outside the
simulation state and the level-finished latch: input flags, debug
toggles, debug-text flag, and the three level-start snapshots are
invariant under `updateAndRender`. -/
lemma updateAndRender_fields : ∀ (fuel : Nat) (env : Env) (s : IngameMode)
    (dt : TimeDelta) (s' : IngameMode) (tr : List Event),
    updateAndRender env fuel s dt = some (s', tr) →
    s'.mPlayerInputs = s.mPlayerInputs ∧
    s'.debuggingSystem = s.debuggingSystem ∧
    s'.mShowDebugText = s.mShowDebugText ∧
    s'.mInitialActors = s.mInitialActors ∧
    s'.mMapAtLevelStart = s.mMapAtLevelStart ∧
    s'.mPlayerModelAtLevelStart = s.mPlayerModelAtLevelStart := by
  intro fuel
  induction fuel with
  | zero =>
    intro env s dt s' tr h
    rw [updateAndRender_zero] at h
    split at h
    case isTrue =>
      injection h with h1
      injection h1 with ha hb
      rw [← ha]
      exact ⟨rfl, rfl, rfl, rfl, rfl, rfl⟩
    case isFalse =>
      split at h
      case isTrue => exact absurd h (by simp)
      case isFalse =>
        injection h with h1
        injection h1 with ha hb
        rw [← ha]
        exact ⟨rfl, rfl, rfl, rfl, rfl, rfl⟩
  | succ f ih =>
    intro env s dt s' tr h
    rw [updateAndRender_succ] at h
    split at h
    case isTrue =>
      injection h with h1
      injection h1 with ha hb
      rw [← ha]
      exact ⟨rfl, rfl, rfl, rfl, rfl, rfl⟩
    case isFalse =>
      split at h
      case isTrue =>
        split at h
        case h_1 => exact absurd h (by simp)
        case h_2 s3 ntr heq =>
          injection h with h1
          injection h1 with ha hb
          have hfields := ih env _ 0 s3 ntr heq
          rw [← ha]
          exact hfields
      case isFalse =>
        injection h with h1
        injection h1 with ha hb
        rw [← ha]
        exact ⟨rfl, rfl, rfl, rfl, rfl, rfl⟩

/-- The exit-check fold equals the initial latch value or-ed with a
per-trigger disjunction. -/
lemma exit_foldl_any (box : WorldBox) :
    ∀ (l : List TriggerEntity) (b : Bool),
      l.foldl
        (fun acc t =>
          if t.mType ≠ TriggerType.LevelExit ∨ acc = true then acc
          else levelExitCondition box t.position)
        b
      = (b || l.any fun t =>
          (t.mType == TriggerType.LevelExit) && levelExitCondition box t.position) := by
  intro l
  induction l with
  | nil => intro b; simp
  | cons t l ih =>
    intro b
    rw [List.foldl_cons, List.any_cons]
    by_cases ht : t.mType = TriggerType.LevelExit <;> cases b <;>
      simp [ht, ih, beq_iff_eq]

/-- Input events never touch the level-finished latch. -/
lemma handleEvent_mLevelFinished (s : IngameMode) (e : KeyEvent) :
    (handleEvent s e).mLevelFinished = s.mLevelFinished := by
  rcases e with ⟨kd, k⟩
  cases kd <;> cases k <;> rfl

/-- Boolean/propositional reading of the death condition. -/
lemma playerDead_iff (sim : SimState) :
    playerDead sim = true ↔
      sim.entities.playerState = PlayerState.Dead ∧
      sim.mPlayerModel.mHealth ≤ 0 := by
  simp [playerDead]

/-- A plain frame's trace never matches the restart-sequence shape:
the event after the death check differs. -/
lemma restart_trace_not_plain (s : IngameMode) (dt : TimeDelta)
    (ntr : List Event)
    (h : mainTrace s dt ++ [Event.deathCheck] ++ [Event.exitCheck] =
      mainTrace s dt
        ++ [Event.deathCheck, Event.fadeOut, Event.resetMapToStart,
            Event.resetAndRecreateEntities, Event.restorePlayerModel]
        ++ ntr ++ [Event.fadeIn, Event.exitCheck]) : False := by
  rw [List.append_assoc, List.append_assoc, List.append_assoc] at h
  have h2 := List.append_cancel_left h
  simp at h2

/-! ## Claims -/

/-- Claim C1 (amended): in every `updateAndRender` call whose
level-finished latch is not yet set, the restart sequence — fade out,
map reset to the level-start snapshot, entity destruction and
recreation from the initial actor list, player-model restore, one
forced render pass at `dt = 0`, fade in — runs within that same call
exactly when the death check observes a `Dead` player state together
with health `≤ 0` after the system updates. -/
theorem claim_C1_restart_iff_dead (env : Env) (fuel : Nat) (s : IngameMode)
    (dt : TimeDelta) (s' : IngameMode) (tr : List Event)
    (hf : s.mLevelFinished = false)
    (h : updateAndRender env fuel s dt = some (s', tr)) :
    ((runSystems env s.mPlayerInputs dt s.sim).entities.playerState =
        PlayerState.Dead ∧
     (runSystems env s.mPlayerInputs dt s.sim).mPlayerModel.mHealth ≤ 0)
    ↔ ∃ ntr, tr = mainTrace s dt
          ++ [Event.deathCheck, Event.fadeOut, Event.resetMapToStart,
              Event.resetAndRecreateEntities, Event.restorePlayerModel]
          ++ ntr ++ [Event.fadeIn, Event.exitCheck]
        ∧ Event.update SystemId.rendering 0 ∈ ntr := by
  cases fuel with
  | zero =>
    rw [updateAndRender_zero] at h
    simp only [hf, Bool.false_eq_true, if_false] at h
    split at h
    case isTrue => exact absurd h (by simp)
    case isFalse hdead =>
      injection h with h1
      injection h1 with ha hb
      constructor
      · intro hd
        exact absurd ((playerDead_iff _).mpr hd) (by simp [hdead])
      · intro ⟨ntr, hshape, _⟩
        rw [← hb] at hshape
        exact absurd hshape (restart_trace_not_plain s dt ntr)
  | succ f =>
    rw [updateAndRender_succ] at h
    simp only [hf, Bool.false_eq_true, if_false] at h
    split at h
    case isTrue hdead =>
      split at h
      case h_1 => exact absurd h (by simp)
      case h_2 s3 ntr heq =>
        injection h with h1
        injection h1 with ha hb
        constructor
        · intro _
          refine ⟨ntr, ?_, ?_⟩
          · rw [← hb]
            simp [restartSteps]
          · obtain ⟨rest, hrest⟩ :=
              updateAndRender_trace_shape env f _ 0 s3 ntr rfl heq
            rw [hrest]
            simp [systemUpdateOrder]
        · intro _
          exact (playerDead_iff _).mp hdead
    case isFalse hdead =>
      injection h with h1
      injection h1 with ha hb
      constructor
      · intro hd
        exact absurd ((playerDead_iff _).mpr hd) (by simp [hdead])
      · intro ⟨ntr, hshape, _⟩
        rw [← hb] at hshape
        exact absurd hshape (restart_trace_not_plain s dt ntr)

/-- Witness for claim C1 at a concrete dead-player state. -/
theorem claim_C1_witness :
    sDeadNow.mLevelFinished = false ∧
    (runSystems idEnv sDeadNow.mPlayerInputs 2 sDeadNow.sim).entities.playerState =
      PlayerState.Dead ∧
    (runSystems idEnv sDeadNow.mPlayerInputs 2 sDeadNow.sim).mPlayerModel.mHealth ≤ 0 ∧
    ∃ ntr, trDead = mainTrace sDeadNow 2
        ++ [Event.deathCheck, Event.fadeOut, Event.resetMapToStart,
            Event.resetAndRecreateEntities, Event.restorePlayerModel]
        ++ ntr ++ [Event.fadeIn, Event.exitCheck]
      ∧ Event.update SystemId.rendering 0 ∈ ntr :=
  ⟨rfl, by decide, by decide,
    (claim_C1_restart_iff_dead idEnv 1 sDeadNow 2 sDeadOut trDead rfl
        (by decide)).mp ⟨by decide, by decide⟩⟩

/-- Counterexample to claim C1 as stated: a call in which the player
state is `Dead` and health is `≤ 0`, yet no restart runs within the
call — the level-finished latch makes `updateAndRender` return
immediately, leaving the map different from its level-start
snapshot. -/
theorem claim_C1_counterexample :
    sFinishedDead.sim.entities.playerState = PlayerState.Dead ∧
    sFinishedDead.sim.mPlayerModel.mHealth ≤ 0 ∧
    updateAndRender idEnv 1 sFinishedDead 2 = some (sFinishedDead, []) ∧
    sFinishedDead.sim.mMap ≠ sFinishedDead.mMapAtLevelStart :=
  ⟨rfl, by decide, by decide, by decide⟩

/-- Claim C2 (amended): with the latch not yet set, the exit check
sets level-finished exactly when some level-exit trigger satisfies
"player bottom at or above trigger y and trigger x within
[player-left, player-right + 1]"; the concrete example at trigger
`(10, 5)` with player box `left = 9, right = 11, bottom = 5` fires,
and moving the player so that `right < 9` or `left > 11` makes the
condition false. -/
theorem claim_C2_exit_condition :
    (∀ s : IngameMode, s.mLevelFinished = false →
      ((checkForLevelExitReached s).mLevelFinished = true ↔
        ∃ t ∈ s.sim.entities.triggers, t.mType = TriggerType.LevelExit ∧
          s.sim.entities.playerBBox.bottom ≤ t.position.y ∧
          s.sim.entities.playerBBox.left ≤ t.position.x ∧
          t.position.x ≤ s.sim.entities.playerBBox.right + 1))
    ∧ levelExitCondition ⟨9, 11, 5⟩ ⟨10, 5⟩ = true
    ∧ (∀ box : WorldBox, box.right < 9 ∨ 11 < box.left →
        levelExitCondition box ⟨10, 5⟩ = false) := by
  refine ⟨?_, by decide, ?_⟩
  · intro s hf
    show s.sim.entities.triggers.foldl _ s.mLevelFinished = true ↔ _
    rw [exit_foldl_any, hf]
    simp only [Bool.false_or, List.any_eq_true, Bool.and_eq_true, beq_iff_eq]
    constructor
    · intro ⟨t, ht, htype, hcond⟩
      refine ⟨t, ht, htype, ?_⟩
      simpa [levelExitCondition, ge_iff_le, and_assoc] using hcond
    · intro ⟨t, ht, htype, hcond⟩
      refine ⟨t, ht, htype, ?_⟩
      simpa [levelExitCondition, ge_iff_le, and_assoc] using hcond
  · intro box hb
    rcases hb with hr | hl
    · have hx : ¬((10 : Int) ≤ box.right + 1) := by omega
      simp [levelExitCondition, decide_eq_false hx]
    · have hx : ¬((10 : Int) ≥ box.left) := by omega
      simp [levelExitCondition, decide_eq_false hx]

/-- Witness for claim C2 at a concrete trigger/player layout. -/
theorem claim_C2_witness :
    ((checkForLevelExitReached sExitW).mLevelFinished = true ↔
      ∃ t ∈ sExitW.sim.entities.triggers, t.mType = TriggerType.LevelExit ∧
        sExitW.sim.entities.playerBBox.bottom ≤ t.position.y ∧
        sExitW.sim.entities.playerBBox.left ≤ t.position.x ∧
        t.position.x ≤ sExitW.sim.entities.playerBBox.right + 1) ∧
    levelExitCondition ⟨0, 5, 5⟩ ⟨10, 5⟩ = false :=
  ⟨claim_C2_exit_condition.1 sExitW rfl,
   claim_C2_exit_condition.2.2 ⟨0, 5, 5⟩ (Or.inl (by decide))⟩

/-- Counterexample to claim C2 as stated: the player box
`left = 7, right = 9, bottom = 5` has `right < 10`, yet the trigger at
`(10, 5)` still fires (the code accepts `trigger.x ≤ right + 1`) and
the exit check sets level-finished that frame. -/
theorem claim_C2_counterexample :
    sC2cex.sim.entities.playerBBox.right < 10 ∧
    sC2cex.mLevelFinished = false ∧
    (checkForLevelExitReached sC2cex).mLevelFinished = true ∧
    levelExitCondition ⟨7, 9, 5⟩ ⟨10, 5⟩ = true :=
  ⟨by decide, rfl, by decide, by decide⟩

/-- Claim C3 (amended): in every non-no-op `updateAndRender` call the
player-death check is evaluated before the level-exit check, and
neither short-circuits the other — the trace always contains the
death-check evaluation followed later by the exit-check evaluation. -/
theorem claim_C3_death_before_exit (env : Env) (fuel : Nat) (s : IngameMode)
    (dt : TimeDelta) (s' : IngameMode) (tr : List Event)
    (hf : s.mLevelFinished = false)
    (h : updateAndRender env fuel s dt = some (s', tr)) :
    ∃ pre mid, tr = pre ++ Event.deathCheck :: (mid ++ [Event.exitCheck]) := by
  cases fuel with
  | zero =>
    rw [updateAndRender_zero] at h
    simp only [hf, Bool.false_eq_true, if_false] at h
    split at h
    case isTrue => exact absurd h (by simp)
    case isFalse =>
      injection h with h1
      injection h1 with ha hb
      refine ⟨mainTrace s dt, [], ?_⟩
      rw [← hb]
      simp
  | succ f =>
    rw [updateAndRender_succ] at h
    simp only [hf, Bool.false_eq_true, if_false] at h
    split at h
    case isTrue =>
      split at h
      case h_1 => exact absurd h (by simp)
      case h_2 s3 ntr heq =>
        injection h with h1
        injection h1 with ha hb
        refine ⟨mainTrace s dt, restartSteps ntr, ?_⟩
        rw [← hb]
        simp
    case isFalse =>
      injection h with h1
      injection h1 with ha hb
      refine ⟨mainTrace s dt, [], ?_⟩
      rw [← hb]
      simp

/-- Witness for claim C3 on a concrete frame. -/
theorem claim_C3_witness :
    ∃ pre mid, trAlive = pre ++ Event.deathCheck :: (mid ++ [Event.exitCheck]) :=
  claim_C3_death_before_exit idEnv 1 sAlive 3 sAlive trAlive rfl (by decide)

/-- Counterexample to claim C3 as stated: in a concrete frame's trace
both checks run, but no exit-check evaluation precedes a death-check
evaluation — the source calls `checkForPlayerDeath` first. -/
theorem claim_C3_counterexample :
    updateAndRender idEnv 1 sAlive 3 = some (sAlive, trAlive) ∧
    Event.deathCheck ∈ trAlive ∧ Event.exitCheck ∈ trAlive ∧
    ¬ exitCheckBeforeDeathCheck trAlive :=
  ⟨by decide, by decide, by decide, by decide⟩

/-- Claim C4: once the level-finished latch is true, it stays true
across any sequence of input events and frames of the same mode
instance, and only constructing a new mode instance yields a cleared
latch. -/
theorem claim_C4_sticky :
    (∀ (env : Env) (fuel : Nat) (s : IngameMode) (ops : List ModeOp)
        (s' : IngameMode), s.mLevelFinished = true →
        runOps env fuel s ops = some s' → s'.mLevelFinished = true)
    ∧ ∀ (actors : EntityWorld) (map : GameMap) (model : PlayerModel),
        (newIngameMode actors map model).mLevelFinished = false := by
  constructor
  · intro env fuel s ops
    induction ops generalizing s with
    | nil =>
      intro s' h hr
      simp only [runOps] at hr
      injection hr with h1
      rw [← h1]
      exact h
    | cons op rest ih =>
      intro s' h hr
      cases op with
      | key e =>
        simp only [runOps] at hr
        exact ih (handleEvent s e) s'
          (by rw [handleEvent_mLevelFinished]; exact h) hr
      | frame dt =>
        simp only [runOps, updateAndRender_finished env fuel s dt h] at hr
        exact ih s s' h hr
  · intro actors map model
    rfl

/-- Witness for claim C4 on a concrete finished instance and op
sequence. -/
theorem claim_C4_witness :
    sFinished.mLevelFinished = true ∧ sFinLeft.mLevelFinished = true ∧
    (newIngameMode actorsW mapW modelW).mLevelFinished = false :=
  ⟨rfl,
   claim_C4_sticky.1 idEnv 1 sFinished
     [ModeOp.key ⟨true, KeyCode.left⟩, ModeOp.frame 1] sFinLeft rfl (by decide),
   claim_C4_sticky.2 actorsW mapW modelW⟩

/-- Claim C5: every non-no-op `updateAndRender` call updates the
systems in exactly the fixed order elevator, player movement, attack,
player interaction, AI (security camera), physics, player damage,
damage infliction, animation, map scroll, followed by the rendering
and debugging systems. -/
theorem claim_C5_fixed_order (env : Env) (fuel : Nat) (s : IngameMode)
    (dt : TimeDelta) (s' : IngameMode) (tr : List Event)
    (hf : s.mLevelFinished = false)
    (h : updateAndRender env fuel s dt = some (s', tr)) :
    ∃ rest, tr =
      [Event.update SystemId.elevator dt, Event.update SystemId.playerMovement dt,
       Event.update SystemId.attack dt, Event.update SystemId.playerInteraction dt,
       Event.update SystemId.securityCamera dt, Event.update SystemId.physics dt,
       Event.update SystemId.playerDamage dt,
       Event.update SystemId.damageInfliction dt,
       Event.update SystemId.animation dt, Event.update SystemId.mapScroll dt,
       Event.update SystemId.rendering dt, Event.update SystemId.debugging dt,
       Event.update SystemId.hud dt] ++ rest := by
  obtain ⟨rest, hr⟩ := updateAndRender_trace_shape env fuel s dt s' tr hf h
  refine ⟨rest, ?_⟩
  rw [hr]
  simp [systemUpdateOrder]

/-- Witness for claim C5 on a concrete frame. -/
theorem claim_C5_witness :
    ∃ rest, trAlive =
      [Event.update SystemId.elevator 3, Event.update SystemId.playerMovement 3,
       Event.update SystemId.attack 3, Event.update SystemId.playerInteraction 3,
       Event.update SystemId.securityCamera 3, Event.update SystemId.physics 3,
       Event.update SystemId.playerDamage 3,
       Event.update SystemId.damageInfliction 3,
       Event.update SystemId.animation 3, Event.update SystemId.mapScroll 3,
       Event.update SystemId.rendering 3, Event.update SystemId.debugging 3,
       Event.update SystemId.hud 3] ++ rest :=
  claim_C5_fixed_order idEnv 1 sAlive 3 sAlive trAlive rfl (by decide)

/-- Claim C6: once the level-finished latch is set,
`updateAndRender(dt)` returns immediately with the state unchanged
and an empty event trace — no system updates, no rendering, no exit
or death checks. -/
theorem claim_C6_noop (env : Env) (fuel : Nat) (s : IngameMode) (dt : TimeDelta)
    (h : s.mLevelFinished = true) :
    updateAndRender env fuel s dt = some (s, []) :=
  updateAndRender_finished env fuel s dt h

/-- Witness for claim C6 on a concrete finished instance. -/
theorem claim_C6_witness :
    updateAndRender idEnv 0 sFinished 2 = some (sFinished, []) :=
  claim_C6_noop idEnv 0 sFinished 2 rfl

/-- Claim C7 (amended): the debug overlay's world-collision pass
queries the map only at coordinates strictly below the map width and
height (the guard checks the upper bounds), and whenever both camera
components are nonnegative every queried coordinate lies within the
full grid extents. -/
theorem claim_C7_collision_bounds :
    (∀ (vw vh : Nat) (cam : Point) (mw mh : Int),
      ∀ p ∈ worldCollisionQueriedTiles vw vh cam mw mh, p.1 < mw ∧ p.2 < mh)
    ∧ (∀ (vw vh : Nat) (cam : Point) (mw mh : Int), 0 ≤ cam.x → 0 ≤ cam.y →
      ∀ p ∈ worldCollisionQueriedTiles vw vh cam mw mh,
        0 ≤ p.1 ∧ p.1 < mw ∧ 0 ≤ p.2 ∧ p.2 < mh) := by
  have hmem : ∀ (vw vh : Nat) (cam : Point) (mw mh : Int),
      ∀ p ∈ worldCollisionQueriedTiles vw vh cam mw mh,
      ∃ x y : Nat, x < vw ∧ y < vh ∧
        p.1 = (x : Int) + cam.x ∧ p.2 = (y : Int) + cam.y ∧
        p.1 < mw ∧ p.2 < mh := by
    intro vw vh cam mw mh p hp
    rw [worldCollisionQueriedTiles, List.mem_flatMap] at hp
    obtain ⟨y, hy, hp2⟩ := hp
    rw [List.mem_filterMap] at hp2
    obtain ⟨x, hx, hpx⟩ := hp2
    rw [List.mem_range] at hx hy
    simp only [Int.ofNat_eq_coe] at hpx
    by_cases hc : ((x : Int) + cam.x ≥ mw ∨ (y : Int) + cam.y ≥ mh)
    · rw [if_pos hc] at hpx
      exact absurd hpx (by simp)
    · rw [if_neg hc] at hpx
      push_neg at hc
      injection hpx with h1
      refine ⟨x, y, hx, hy, ?_, ?_, ?_, ?_⟩ <;>
        rw [← h1] <;> simp [hc.1, hc.2]
  constructor
  · intro vw vh cam mw mh p hp
    obtain ⟨x, y, _, _, _, _, h5, h6⟩ := hmem vw vh cam mw mh p hp
    exact ⟨h5, h6⟩
  · intro vw vh cam mw mh hcx hcy p hp
    obtain ⟨x, y, _, _, h3, h4, h5, h6⟩ := hmem vw vh cam mw mh p hp
    refine ⟨?_, h5, ?_, h6⟩
    · rw [h3]; positivity
    · rw [h4]; positivity

/-- Witness for claim C7 on a concrete camera and map. -/
theorem claim_C7_witness :
    (0 : Int) ≤ 0 ∧
    (0 ≤ ((1 : Int), (1 : Int)).1 ∧ ((1 : Int), (1 : Int)).1 < 5 ∧
     0 ≤ ((1 : Int), (1 : Int)).2 ∧ ((1 : Int), (1 : Int)).2 < 5) :=
  ⟨by decide,
   claim_C7_collision_bounds.2 2 2 ⟨0, 0⟩ 5 5 (by decide) (by decide)
     ((1 : Int), (1 : Int)) (by decide)⟩

/-- Counterexample to claim C7 as stated: with camera position
`(-1, 0)` the pass queries the map at column `-1`, outside the grid —
the source guard checks only the upper bounds. -/
theorem claim_C7_counterexample :
    worldCollisionQueriedTiles 1 1 ⟨-1, 0⟩ 5 5 = [(-1, 0)] ∧
    ((-1 : Int), (0 : Int)) ∈ worldCollisionQueriedTiles 1 1 ⟨-1, 0⟩ 5 5 ∧
    ¬ (0 : Int) ≤ -1 :=
  ⟨by decide, by decide, by decide⟩

/-- Claim C8: each debug display toggle is an involution and changes
only its own flag. -/
theorem claim_C8_toggle_involution (d : DebuggingSystem) :
    d.toggleBoundingBoxDisplay.toggleBoundingBoxDisplay = d ∧
    d.toggleWorldCollisionDataDisplay.toggleWorldCollisionDataDisplay = d ∧
    d.toggleGridDisplay.toggleGridDisplay = d ∧
    d.toggleBoundingBoxDisplay.mShowWorldCollisionData = d.mShowWorldCollisionData ∧
    d.toggleBoundingBoxDisplay.mShowGrid = d.mShowGrid ∧
    d.toggleWorldCollisionDataDisplay.mShowBoundingBoxes = d.mShowBoundingBoxes ∧
    d.toggleWorldCollisionDataDisplay.mShowGrid = d.mShowGrid ∧
    d.toggleGridDisplay.mShowBoundingBoxes = d.mShowBoundingBoxes ∧
    d.toggleGridDisplay.mShowWorldCollisionData = d.mShowWorldCollisionData := by
  rcases d with ⟨b1, b2, b3⟩
  refine ⟨?_, ?_, ?_, rfl, rfl, rfl, rfl, rfl, rfl⟩ <;>
    simp [DebuggingSystem.toggleBoundingBoxDisplay,
      DebuggingSystem.toggleWorldCollisionDataDisplay,
      DebuggingSystem.toggleGridDisplay]

/-- Claim C9 (amended): when bounding-box display is on, every entity
with `WorldPosition` and `BoundingBox` is drawn with the strict
priority color (red if `PlayerDamaging`, else yellow if `SolidBody`,
else green), and every entity with `WorldPosition` and
`MapGeometryLink` has its linked region drawn in cyan. -/
theorem claim_C9_draw_colors (d : DebuggingSystem) (es : List DebugEntity)
    (hOn : d.mShowBoundingBoxes = true) :
    (∀ e ∈ es, e.hasWorldPosition = true → e.hasBoundingBox = true →
      (e, colorForEntity e) ∈ boundingBoxPassDraws d es) ∧
    (∀ e ∈ es, e.hasWorldPosition = true → e.hasMapGeometryLink = true →
      (e, (⟨0, 255, 255, 190⟩ : Color)) ∈ boundingBoxPassDraws d es) ∧
    ∀ e : DebugEntity,
      (e.hasPlayerDamaging = true → colorForEntity e = ⟨255, 0, 0, 255⟩) ∧
      (e.hasPlayerDamaging = false → e.hasSolidBody = true →
        colorForEntity e = ⟨255, 255, 0, 255⟩) ∧
      (e.hasPlayerDamaging = false → e.hasSolidBody = false →
        colorForEntity e = ⟨0, 255, 0, 255⟩) := by
  refine ⟨?_, ?_, ?_⟩
  · intro e he h1 h2
    simp only [boundingBoxPassDraws, hOn, if_true, List.mem_append, List.mem_map,
      List.mem_filter]
    exact Or.inl ⟨e, ⟨he, by simp [h1, h2]⟩, rfl⟩
  · intro e he h1 h2
    simp only [boundingBoxPassDraws, hOn, if_true, List.mem_append, List.mem_map,
      List.mem_filter]
    exact Or.inr ⟨e, ⟨he, by simp [h1, h2]⟩, rfl⟩
  · intro e
    refine ⟨?_, ?_, ?_⟩ <;> intro h1 <;> simp [colorForEntity, h1]

/-- Witness for claim C9 on a concrete damaging entity. -/
theorem claim_C9_witness :
    dOn.mShowBoundingBoxes = true ∧
    (eDamaging, colorForEntity eDamaging) ∈ boundingBoxPassDraws dOn [eDamaging] :=
  ⟨rfl, (claim_C9_draw_colors dOn [eDamaging] rfl).1 eDamaging (by decide) rfl rfl⟩

/-- Counterexample to claim C9 as stated: an entity carrying a
`MapGeometryLink` but no `WorldPosition` is not drawn at all — the
source iterates `each<WorldPosition, MapGeometryLink>`. -/
theorem claim_C9_counterexample :
    dOn.mShowBoundingBoxes = true ∧
    eLinkNoPos.hasMapGeometryLink = true ∧
    boundingBoxPassDraws dOn [eLinkNoPos] = [] :=
  ⟨rfl, rfl, by decide⟩

/-- Claim C10 (amended): `restartLevel` leaves the pending input
flags, the debug display toggles and the debug-text flag unchanged,
and never clears the level-finished latch — though the forced render
pass may set the latch when the recreated initial layout already
satisfies the exit condition. -/
theorem claim_C10_restart_frame (env : Env) (fuel : Nat) (s s' : IngameMode)
    (tr : List Event) (h : restartLevel env fuel s = some (s', tr)) :
    s'.mPlayerInputs = s.mPlayerInputs ∧
    s'.debuggingSystem = s.debuggingSystem ∧
    s'.mShowDebugText = s.mShowDebugText ∧
    (s.mLevelFinished = true → s'.mLevelFinished = true) := by
  rw [restartLevel] at h
  split at h
  case h_1 => exact absurd h (by simp)
  case h_2 s3 ntr heq =>
    injection h with h1
    injection h1 with ha hb
    obtain ⟨h1, h2, h3, _, _, _⟩ :=
      updateAndRender_fields fuel env (restartBase s) 0 s3 ntr heq
    rw [← ha]
    refine ⟨h1, h2, h3, ?_⟩
    intro hfin
    have hnoop := updateAndRender_finished env fuel (restartBase s) 0 hfin
    rw [hnoop] at heq
    injection heq with hq
    injection hq with hq1 hq2
    rw [← hq1]
    exact hfin

/-- Witness for claim C10 on a concrete restart. -/
theorem claim_C10_witness :
    sRestartOut.mPlayerInputs = sRestartCex.mPlayerInputs ∧
    sRestartOut.debuggingSystem = sRestartCex.debuggingSystem ∧
    sRestartOut.mShowDebugText = sRestartCex.mShowDebugText ∧
    (sRestartCex.mLevelFinished = true → sRestartOut.mLevelFinished = true) :=
  claim_C10_restart_frame idEnv 1 sRestartCex sRestartOut trRestart (by decide)

/-- Counterexample to claim C10 as stated: a restart whose recreated
initial layout spawns the player on a level-exit trigger flips the
level-finished latch from false to true — the nested forced
`updateAndRender(0)` pass runs the exit check. -/
theorem claim_C10_counterexample :
    sRestartCex.mLevelFinished = false ∧
    (restartLevel idEnv 1 sRestartCex).map (fun p => p.1.mLevelFinished) =
      some true :=
  ⟨rfl, by decide⟩

end Rigel
